import Mathlib

/-!
Shallow embedding of the session/chat logic of `src/src/components/Chat.tsx`.

The component's React state (`sessionId`, `messages`, `input`, `isLoading`,
`historyList`) together with the two `localStorage` keys it touches
(`chat_session_id`, `chat_history_list`) is modelled as the structure
`ChatState`.  Each event handler of the component becomes a function from a
`ChatState` (plus the outcome of the remote call it awaits, passed in as an
explicit `Except Unit _` argument, and the result of any `window.confirm`
dialog, passed as a `Bool`) to the resulting `ChatState` together with the
list of network requests it issued.  Host-environment primitives used by the
component (`String.prototype.trim`, the `||` operator on possibly-absent
strings, `JSON.parse` of a stored value) are modelled explicitly below.
-/

namespace ChatTsx

/-- `type Role = 'assistant' | 'user'` (Chat.tsx line 6). -/
inductive Role where
  | assistant
  | user
  deriving DecidableEq, Repr

/-- `type Source = { link: string; source: string }` (lines 8-11). -/
structure Source where
  link : String
  source : String
  deriving DecidableEq, Repr

/-- `type Message = { role: Role; content: string; sources?: Source[] }`
(lines 13-17); the optional `sources` field is an `Option`, `none` meaning
the field is absent. -/
structure Message where
  role : Role
  content : String
  sources : Option (List Source) := none
  deriving DecidableEq, Repr

/-- `type HistoryItem = { id: string; date: string }` (lines 19-22). -/
structure HistoryItem where
  id : String
  date : String
  deriving DecidableEq, Repr

/-- `initialAssistantMessage` (lines 24-27). -/
def initialAssistantMessage : Message :=
  { role := .assistant
    content := "Hello! I am your news assistant. Ask me anything about the latest news." }

/-- The fixed error entry appended in the `catch` of `sendMessage` (line 189). -/
def errorAssistantMessage : Message :=
  { role := .assistant
    content := "Sorry, something went wrong. Please try again." }

/-- Model of the whitespace class of JavaScript `String.prototype.trim`
(restricted to the ASCII whitespace characters). -/
def isJsWhitespace (c : Char) : Bool :=
  c = ' ' || c = '\t' || c = '\n' || c = '\r' || c = '\x0b' || c = '\x0c'

/-- Model of the host function `String.prototype.trim`: drops leading and
trailing whitespace. -/
def jsTrim (s : String) : String :=
  String.mk (((s.data.dropWhile isJsWhitespace).reverse.dropWhile isJsWhitespace).reverse)

/-- Model of the JavaScript expression `a || d` where `a` is a string that may
be absent (`undefined`/`null`, modelled `none`): an absent or empty string is
falsy, so the default `d` is used (as in `data.answer || 'No response
received.'`, lines 179 and 184). -/
def jsOrString (a : Option String) (d : String) : String :=
  match a with
  | none => d
  | some s => if s = "" then d else s

/-- Value stored under the `chat_history_list` key: absent, or a string that
`JSON.parse` deserializes to a `HistoryItem` list, or a malformed string on
which `JSON.parse` throws. -/
inductive StoredValue where
  | absent
  | wellFormed (l : List HistoryItem)
  | malformed
  deriving DecidableEq, Repr

/-- The two `localStorage` keys used by the component (`chat_session_id`,
`chat_history_list`). -/
structure Store where
  chatSessionId : Option String
  chatHistoryList : StoredValue
  deriving DecidableEq, Repr

/-- The component's React state plus the persistent store. -/
structure ChatState where
  sessionId : Option String
  messages : List Message
  input : String
  isLoading : Bool
  historyList : List HistoryItem
  store : Store
  deriving DecidableEq, Repr

/-- One network request issued by the component, identified by endpoint and
payload (lines 67, 88, 167-171, 121, 148). -/
inductive NetworkCall where
  | createSession
  | fetchHistory (id : String)
  | chat (sessionId : Option String) (message : String)
  | deleteSession (id : String)
  deriving DecidableEq, Repr

/-- Success payload of the history endpoint:
`{ history?: Message[] }` (line 89). -/
structure HistoryResponse where
  history : Option (List Message)
  deriving DecidableEq, Repr

/-- Success payload of the chat endpoint:
`{ answer?: string; sources?: Source[] }` (line 172). -/
structure ChatResponse where
  answer : Option String
  sources : Option (List Source)
  deriving DecidableEq, Repr

/-- `JSON.parse(localStorage.getItem('chat_history_list') || '[]')`
(line 38): an absent key falls back to the literal `'[]'` which parses to the
empty list; a well-formed value parses to its list; `JSON.parse` of a
malformed value throws, modelled as `Except.error`. -/
def parseStoredHistoryList : StoredValue → Except Unit (List HistoryItem)
  | .absent => .ok []
  | .wellFormed l => .ok l
  | .malformed => .error ()

/-- `fetchHistory` (lines 86-98): on a successful response, a present
non-empty `history` replaces `messages` wholesale, otherwise `messages`
becomes the single greeting; the `catch` only logs, leaving the state
unchanged. -/
def fetchHistory (st : ChatState) (id : String) (res : Except Unit HistoryResponse) :
    ChatState × List NetworkCall :=
  let st' :=
    match res with
    | .ok data =>
        match data.history with
        | some h =>
            if h.length > 0 then { st with messages := h }
            else { st with messages := [initialAssistantMessage] }
        | none => { st with messages := [initialAssistantMessage] }
    | .error _ => st
  (st', [NetworkCall.fetchHistory id])

/-- `createSession` (lines 65-84): on success the new id becomes current and
is persisted, the log is seeded with the greeting, and a new `HistoryItem`
(with the current date string `now`) is prepended to `historyList` and
persisted; the `catch` only logs, leaving the state unchanged. -/
def createSession (st : ChatState) (now : String) (res : Except Unit String) :
    ChatState × List NetworkCall :=
  let st' :=
    match res with
    | .ok newSessionId =>
        let newHistoryItem : HistoryItem := { id := newSessionId, date := now }
        let updatedList := newHistoryItem :: st.historyList
        { st with
          sessionId := some newSessionId
          messages := [initialAssistantMessage]
          historyList := updatedList
          store := { chatSessionId := some newSessionId
                     chatHistoryList := .wellFormed updatedList } }
    | .error _ => st
  (st', [NetworkCall.createSession])

/-- `handleLoadSession` (lines 104-109): selecting the already-active id
returns immediately; otherwise the id becomes current, is persisted, and a
history fetch for it is triggered. -/
def handleLoadSession (st : ChatState) (id : String) (res : Except Unit HistoryResponse) :
    ChatState × List NetworkCall :=
  if some id = st.sessionId then (st, [])
  else
    let st1 := { st with
      sessionId := some id
      store := { st.store with chatSessionId := some id } }
    fetchHistory st1 id res

/-- Result of `handleDeleteSession`: the new state, the network calls issued,
and whether the blocking `alert` warning was shown. -/
structure DeleteResult where
  state : ChatState
  calls : List NetworkCall
  alerted : Bool
  deriving DecidableEq, Repr

/-- `handleDeleteSession` (lines 111-141): refuses with an `alert` and no
network call when `historyList` has at most one entry; after the
`window.confirm` dialog (`confirmed`), issues the remote deletion; on success
filters the id out of `historyList`, persists the filtered list, and, when
the deleted id was active, switches to the new head of the list (triggering
its history fetch) or, with the list now empty, clears the active id and
resets the log to the greeting; the `catch` only logs. -/
def handleDeleteSession (st : ChatState) (id : String) (confirmed : Bool)
    (delRes : Except Unit Unit) (fetchRes : Except Unit HistoryResponse) : DeleteResult :=
  if st.historyList.length ≤ 1 then
    { state := st, calls := [], alerted := true }
  else if confirmed = false then
    { state := st, calls := [], alerted := false }
  else
    match delRes with
    | .error _ =>
        { state := st, calls := [NetworkCall.deleteSession id], alerted := false }
    | .ok _ =>
        let updatedList := st.historyList.filter (fun item => item.id != id)
        let st1 := { st with
          historyList := updatedList
          store := { st.store with chatHistoryList := .wellFormed updatedList } }
        if some id = st.sessionId then
          match updatedList with
          | nextSession :: _ =>
              let r := handleLoadSession st1 nextSession.id fetchRes
              { state := r.1, calls := NetworkCall.deleteSession id :: r.2, alerted := false }
          | [] =>
              { state := { st1 with
                  sessionId := none
                  messages := [initialAssistantMessage]
                  store := { st1.store with chatSessionId := none } }
                calls := [NetworkCall.deleteSession id]
                alerted := false }
        else
          { state := st1, calls := [NetworkCall.deleteSession id], alerted := false }

/-- `handleResetChat` (lines 143-155): a no-op without an active session;
after the `window.confirm` dialog, issues the remote deletion for the current
id and on success replaces the log with the single greeting; the `catch` only
logs. -/
def handleResetChat (st : ChatState) (confirmed : Bool) (delRes : Except Unit Unit) :
    ChatState × List NetworkCall :=
  match st.sessionId with
  | none => (st, [])
  | some sessionId =>
      if confirmed = false then (st, [])
      else
        match delRes with
        | .ok _ =>
            ({ st with messages := [initialAssistantMessage] },
             [NetworkCall.deleteSession sessionId])
        | .error _ => (st, [NetworkCall.deleteSession sessionId])

/-- `sendMessage` (lines 157-193): returns immediately when the trimmed input
is empty or a send is pending; otherwise optimistically appends the user
entry, clears the input, sets `isLoading`, posts to the chat endpoint, and
appends either the assistant reply (with a `sources` field exactly when the
response object carried one, `[]` being truthy in JavaScript) or the fixed
error entry; the `finally` clears `isLoading`. -/
def sendMessage (st : ChatState) (res : Except Unit ChatResponse) :
    ChatState × List NetworkCall :=
  if jsTrim st.input = "" ∨ st.isLoading = true then (st, [])
  else
    let userMessage : Message := { role := .user, content := st.input }
    let st1 := { st with
      messages := st.messages ++ [userMessage]
      input := ""
      isLoading := true }
    let st2 :=
      match res with
      | .ok data =>
          let reply : Message :=
            match data.sources with
            | some s =>
                { role := .assistant
                  content := jsOrString data.answer "No response received."
                  sources := some s }
            | none =>
                { role := .assistant
                  content := jsOrString data.answer "No response received." }
          { st1 with messages := st1.messages ++ [reply] }
      | .error _ =>
          { st1 with messages := st1.messages ++ [errorAssistantMessage] }
    ({ st2 with isLoading := false }, [NetworkCall.chat st.sessionId st.input])

/-- The mount effect (lines 37-55): parses the stored history list — a throw
from `JSON.parse` on a malformed value is not caught and aborts the effect —
then either restores the stored session id and fetches its history, or
creates a fresh session. -/
def mountEffect (st : ChatState) (createRes : Except Unit String) (now : String)
    (fetchRes : Except Unit HistoryResponse) :
    Except Unit (ChatState × List NetworkCall) :=
  match parseStoredHistoryList st.store.chatHistoryList with
  | .error e => .error e
  | .ok storedHistory =>
      let st0 := { st with historyList := storedHistory }
      match st0.store.chatSessionId with
      | some storedSession =>
          .ok (fetchHistory { st0 with sessionId := some storedSession } storedSession fetchRes)
      | none => .ok (createSession st0 now createRes)

/-! Concrete states used to instantiate the theorems below. -/

/-- A concrete reachable state: one stored session `abc` (active), empty log,
pending input `hi`, not loading. -/
def demoState : ChatState :=
  { sessionId := some "abc"
    messages := []
    input := "hi"
    isLoading := false
    historyList := [{ id := "abc", date := "d1" }]
    store := { chatSessionId := some "abc"
               chatHistoryList := .wellFormed [{ id := "abc", date := "d1" }] } }

/-- `demoState` with a second session `xyz` in the registry. -/
def demoStateTwo : ChatState :=
  { demoState with
    historyList := [{ id := "abc", date := "d1" }, { id := "xyz", date := "d2" }]
    store := { chatSessionId := some "abc"
               chatHistoryList :=
                 .wellFormed [{ id := "abc", date := "d1" }, { id := "xyz", date := "d2" }] } }

/-- `demoState` with a malformed value under the `chat_history_list` key. -/
def malformedState : ChatState :=
  { demoState with
    store := { chatSessionId := some "abc", chatHistoryList := .malformed } }

/-- `demoState` with the `chat_history_list` key absent. -/
def absentStoreState : ChatState :=
  { demoState with
    store := { chatSessionId := some "abc", chatHistoryList := .absent } }

/-- `demoState` with no active session. -/
def noSessionState : ChatState :=
  { demoState with sessionId := none }

/-! Helper lemma: `fetchHistory` only rewrites `messages` and issues exactly
one history request. -/

theorem fetchHistory_frame (st : ChatState) (id : String)
    (res : Except Unit HistoryResponse) :
    (fetchHistory st id res).1.sessionId = st.sessionId ∧
    (fetchHistory st id res).1.store = st.store ∧
    (fetchHistory st id res).1.historyList = st.historyList ∧
    (fetchHistory st id res).2 = [NetworkCall.fetchHistory id] := by
  rcases res with e | ⟨hist⟩
  · exact ⟨rfl, rfl, rfl, rfl⟩
  · rcases hist with _ | h
    · exact ⟨rfl, rfl, rfl, rfl⟩
    · unfold fetchHistory
      by_cases hl : h.length > 0 <;> simp [hl]

/-- C7: for every input string that is empty or consists only of whitespace,
invoking the send operation is a no-op: no entry is appended to the
Conversation Log and no network call is made (the whole state, log included,
is unchanged and the call list is empty). -/
theorem C7_blank_input_send_noop (st : ChatState) (res : Except Unit ChatResponse)
    (h : jsTrim st.input = "") : sendMessage st res = (st, []) := by
  unfold sendMessage
  rw [if_pos (Or.inl h)]

/-- Witness for C7 at a concrete whitespace-only input. -/
theorem C7_blank_input_send_noop_witness :
    sendMessage { demoState with input := "  " } (.ok { answer := none, sources := none }) =
      ({ demoState with input := "  " }, []) :=
  C7_blank_input_send_noop { demoState with input := "  " }
    (.ok { answer := none, sources := none }) (by decide)

/-- C10: a send that begins (non-empty trimmed input, not loading) ends with
`isLoading = false` whatever the outcome of the remote call (the `finally`
clause), and a send attempted while one is pending is a complete no-op (the
`isLoading` guard), so at most one send is ever pending. -/
theorem C10_loading_flag (st : ChatState) (res : Except Unit ChatResponse) :
    (jsTrim st.input ≠ "" → st.isLoading = false →
      (sendMessage st res).1.isLoading = false) ∧
    (st.isLoading = true → sendMessage st res = (st, [])) := by
  constructor
  · intro h1 h2
    unfold sendMessage
    rw [if_neg (by simp [h1, h2])]
  · intro h
    unfold sendMessage
    rw [if_pos (Or.inr h)]

/-- Witness for C10: a begun send (failed here) ends not loading, and a send
during a pending one is a no-op. -/
theorem C10_loading_flag_witness :
    (sendMessage demoState (.error ())).1.isLoading = false ∧
    sendMessage { demoState with isLoading := true } (.error ()) =
      ({ demoState with isLoading := true }, []) :=
  ⟨(C10_loading_flag demoState (.error ())).1 (by decide) (by decide),
   (C10_loading_flag { demoState with isLoading := true } (.error ())).2 (by decide)⟩

/-- C1 (amended): a send that begins (non-empty trimmed input, not loading)
grows the Conversation Log by exactly 2 entries whatever the outcome of the
remote call: user entry + assistant entry on success, user entry + error
entry on failure — never more, and also never by 1. -/
theorem C1_send_grows_log_by_two (st : ChatState) (res : Except Unit ChatResponse)
    (h1 : jsTrim st.input ≠ "") (h2 : st.isLoading = false) :
    (sendMessage st res).1.messages.length = st.messages.length + 2 := by
  unfold sendMessage
  rw [if_neg (by simp [h1, h2])]
  rcases res with e | ⟨answer, sources⟩
  · simp
  · rcases sources with _ | s <;> simp

/-- Witness for C1 at a concrete successful send. -/
theorem C1_send_grows_log_by_two_witness :
    (sendMessage demoState (.ok { answer := some "Here.", sources := none })).1.messages.length =
      demoState.messages.length + 2 :=
  C1_send_grows_log_by_two demoState (.ok { answer := some "Here.", sources := none })
    (by decide) (by decide)

/-- Counterexample to C1 as stated: at `demoState` a send whose remote call
fails grows the Conversation Log by 2 (the optimistic user entry plus the
fixed error entry), not by 1 as the claim says. -/
theorem C1_failed_send_counterexample :
    (sendMessage demoState (.error ())).1.messages.length = demoState.messages.length + 2 ∧
    (sendMessage demoState (.error ())).1.messages.length ≠ demoState.messages.length + 1 := by
  decide

/-- C2 (amended): on a successful send the log gains exactly the user entry
and an assistant entry whose `sources` field equals the `sources` field of
the response: present exactly when the response carried one (an empty
citation list `[]` is truthy in JavaScript, so it is carried through as an
empty `sources` field), absent only when the response omitted it. -/
theorem C2_assistant_sources_mirror_response (st : ChatState) (data : ChatResponse)
    (h1 : jsTrim st.input ≠ "") (h2 : st.isLoading = false) :
    (sendMessage st (.ok data)).1.messages =
      st.messages ++
        [{ role := .user, content := st.input },
         { role := .assistant
           content := jsOrString data.answer "No response received."
           sources := data.sources }] := by
  unfold sendMessage
  rw [if_neg (by simp [h1, h2])]
  obtain ⟨answer, sources⟩ := data
  rcases sources with _ | s <;> simp

/-- Witness for C2: the one-citation scenario of the spec — the appended
assistant entry carries a `sources` list of length 1. -/
theorem C2_assistant_sources_mirror_response_witness :
    (sendMessage demoState
        (.ok { answer := some "Here.", sources := some [{ link := "http://x", source := "X" }] })).1.messages =
      demoState.messages ++
        [{ role := .user, content := demoState.input },
         { role := .assistant
           content := jsOrString (some "Here.") "No response received."
           sources := some [{ link := "http://x", source := "X" }] }] :=
  C2_assistant_sources_mirror_response demoState
    { answer := some "Here.", sources := some [{ link := "http://x", source := "X" }] }
    (by decide) (by decide)

/-- Counterexample to C2 as stated: a response whose `sources` is the empty
list yields an assistant entry that still has a `sources` field (holding
`[]`), not an entry without the field, because an empty array is truthy in
JavaScript. -/
theorem C2_empty_sources_counterexample :
    ((sendMessage demoState (.ok { answer := some "Here.", sources := some [] })).1.messages.getLast?.map
        Message.sources) = some (some []) ∧
    ((sendMessage demoState (.ok { answer := some "Here.", sources := some [] })).1.messages.getLast?.map
        Message.sources) ≠ some none := by
  decide

/-- C6: loading history wholly replaces the Conversation Log: a non-empty
returned history becomes the log exactly (no greeting prepended), and an
empty or absent history resets the log to the single default greeting. -/
theorem C6_history_replaces_log (st : ChatState) (id : String) (h : List Message)
    (hne : h ≠ []) :
    (fetchHistory st id (.ok { history := some h })).1.messages = h ∧
    (fetchHistory st id (.ok { history := some [] })).1.messages = [initialAssistantMessage] ∧
    (fetchHistory st id (.ok { history := none })).1.messages = [initialAssistantMessage] := by
  refine ⟨?_, rfl, rfl⟩
  have hl : h.length > 0 := List.length_pos.mpr hne
  unfold fetchHistory
  simp [hl]

/-- Witness for C6 at a concrete one-entry history. -/
theorem C6_history_replaces_log_witness :
    (fetchHistory demoState "abc"
        (.ok { history := some [{ role := .user, content := "hi" }] })).1.messages =
      [{ role := .user, content := "hi" }] ∧
    (fetchHistory demoState "abc" (.ok { history := some [] })).1.messages =
      [initialAssistantMessage] ∧
    (fetchHistory demoState "abc" (.ok { history := none })).1.messages =
      [initialAssistantMessage] :=
  C6_history_replaces_log demoState "abc" [{ role := .user, content := "hi" }] (by decide)

/-- C3 (amended): the startup load of the Session Registry yields a
`SessionRef` sequence whenever the stored value is parseable — the stored
list itself when it is well-formed, the empty sequence when the key is absent
(in both cases the registry after the mount holds exactly the loaded list
whenever a persisted session id exists; without one, `createSession` prepends
the fresh session to it at once) — but a malformed stored value makes the
uncaught `JSON.parse` throw, aborting the mount effect: it is not treated as
empty. -/
theorem C3_registry_load (st : ChatState) (createRes : Except Unit String) (now : String)
    (fetchRes : Except Unit HistoryResponse) :
    (st.store.chatHistoryList = .malformed →
      mountEffect st createRes now fetchRes = .error ()) ∧
    (∀ l, st.store.chatHistoryList = .wellFormed l →
      ∃ out, mountEffect st createRes now fetchRes = .ok out ∧
        (st.store.chatSessionId ≠ none → out.1.historyList = l)) ∧
    (st.store.chatHistoryList = .absent →
      ∃ out, mountEffect st createRes now fetchRes = .ok out ∧
        (st.store.chatSessionId ≠ none → out.1.historyList = [])) := by
  refine ⟨?_, ?_, ?_⟩
  · intro h
    simp only [mountEffect, h, parseStoredHistoryList]
  · intro l h
    simp only [mountEffect, h, parseStoredHistoryList]
    rcases hs : st.store.chatSessionId with _ | s
    · simp [hs]
    · simp only [hs]
      exact ⟨_, rfl, fun _ =>
        (fetchHistory_frame { st with historyList := l, sessionId := some s } s fetchRes).2.2.1⟩
  · intro h
    simp only [mountEffect, h, parseStoredHistoryList]
    rcases hs : st.store.chatSessionId with _ | s
    · simp [hs]
    · simp only [hs]
      exact ⟨_, rfl, fun _ =>
        (fetchHistory_frame { st with historyList := [], sessionId := some s } s fetchRes).2.2.1⟩

/-- Witness for C3: a malformed store aborts the mount, a well-formed store
completes it with exactly the stored list loaded, and an absent store
completes it with an empty loaded registry. -/
theorem C3_registry_load_witness :
    mountEffect malformedState (.ok "s2") "d2" (.ok { history := none }) = .error () ∧
    (∃ out, mountEffect demoState (.ok "s2") "d2" (.ok { history := none }) = .ok out ∧
      (demoState.store.chatSessionId ≠ none →
        out.1.historyList = [{ id := "abc", date := "d1" }])) ∧
    (∃ out, mountEffect absentStoreState (.ok "s2") "d2" (.ok { history := none }) = .ok out ∧
      (absentStoreState.store.chatSessionId ≠ none → out.1.historyList = [])) :=
  ⟨(C3_registry_load malformedState (.ok "s2") "d2" (.ok { history := none })).1 (by decide),
   (C3_registry_load demoState (.ok "s2") "d2" (.ok { history := none })).2.1
     [{ id := "abc", date := "d1" }] (by decide),
   (C3_registry_load absentStoreState (.ok "s2") "d2" (.ok { history := none })).2.2 (by decide)⟩

/-- Counterexample to C3 as stated: at a concrete state whose persisted
registry value is malformed, the startup load does not return the empty
sequence — the mount effect fails with the uncaught parse exception. -/
theorem C3_malformed_counterexample :
    mountEffect malformedState (.ok "s2") "d2" (.ok { history := none }) = .error () := rfl

/-- C4 (amended): every remote-call failure is caught at its call site and
none is re-thrown — the handlers are total and, on failure, leave the whole
state unchanged (fetch history, create session, reset, delete), except the
send operation, whose failure alone produces a user-visible fallback: the
optimistic user entry followed by the fixed error entry. -/
theorem C4_failures_caught (st : ChatState) (id now : String) (c : Bool)
    (fr : Except Unit HistoryResponse) :
    (fetchHistory st id (.error ())).1 = st ∧
    (createSession st now (.error ())).1 = st ∧
    (handleResetChat st c (.error ())).1 = st ∧
    (handleDeleteSession st id c (.error ()) fr).state = st ∧
    (jsTrim st.input ≠ "" → st.isLoading = false →
      (sendMessage st (.error ())).1.messages =
        st.messages ++ [{ role := .user, content := st.input }, errorAssistantMessage]) := by
  refine ⟨rfl, rfl, ?_, ?_, ?_⟩
  · rcases hs : st.sessionId with _ | sid
    · simp [handleResetChat, hs]
    · cases c <;> simp [handleResetChat, hs]
  · by_cases hl : st.historyList.length ≤ 1
    · simp [handleDeleteSession, hl]
    · cases c <;> simp [handleDeleteSession, hl]
  · intro h1 h2
    unfold sendMessage
    rw [if_neg (by simp [h1, h2])]
    simp

/-- Witness for C4: at `demoState` a failed send appends the user entry and
the fixed error entry. -/
theorem C4_failures_caught_witness :
    (sendMessage demoState (.error ())).1.messages =
      demoState.messages ++
        [{ role := .user, content := demoState.input }, errorAssistantMessage] :=
  (C4_failures_caught demoState "abc" "d1" true (.ok { history := none })).2.2.2.2
    (by decide) (by decide)

/-- Counterexample to C4 as stated: at `demoState` (empty log) a failed
history fetch is merely logged — the Conversation Log stays empty, so the
failure is not converted into any user-visible fallback (neither the greeting
nor the fixed error entry appears). -/
theorem C4_fetch_failure_no_fallback_counterexample :
    (fetchHistory demoState "abc" (.error ())).1.messages = [] ∧
    initialAssistantMessage ∉ (fetchHistory demoState "abc" (.error ())).1.messages ∧
    errorAssistantMessage ∉ (fetchHistory demoState "abc" (.error ())).1.messages := by
  decide

/-- C5: when the Session Registry holds at most one entry, requesting
deletion of a registered session is rejected before any network call: the
`alert` warning fires, no request is issued, the whole state (registry, log,
active id, persisted keys) is unchanged, and the registry length stays at
least 1. -/
theorem C5_last_session_delete_rejected (st : ChatState) (id : String) (c : Bool)
    (dr : Except Unit Unit) (fr : Except Unit HistoryResponse)
    (hlen : st.historyList.length ≤ 1) (hid : id ∈ st.historyList.map HistoryItem.id) :
    handleDeleteSession st id c dr fr = { state := st, calls := [], alerted := true } ∧
    1 ≤ (handleDeleteSession st id c dr fr).state.historyList.length := by
  have h1 : handleDeleteSession st id c dr fr =
      { state := st, calls := [], alerted := true } := by
    simp [handleDeleteSession, hlen]
  refine ⟨h1, ?_⟩
  rw [h1]
  show 1 ≤ st.historyList.length
  have hne : st.historyList ≠ [] := by
    intro he
    rw [he] at hid
    simp at hid
  have := List.length_pos.mpr hne
  omega

/-- Witness for C5 at the singleton registry of `demoState`. -/
theorem C5_last_session_delete_rejected_witness :
    handleDeleteSession demoState "abc" true (.ok ()) (.ok { history := none }) =
      { state := demoState, calls := [], alerted := true } ∧
    1 ≤ (handleDeleteSession demoState "abc" true (.ok ())
          (.ok { history := none })).state.historyList.length :=
  C5_last_session_delete_rejected demoState "abc" true (.ok ()) (.ok { history := none })
    (by decide) (by decide)

/-- C8: a confirmed successful reset of an active session replaces the
Conversation Log with exactly the single greeting and changes nothing else —
registry, active id and both persisted keys are untouched — while with no
active session reset is a complete no-op. -/
theorem C8_reset_scoped_to_log (st : ChatState) (sid : String) (c : Bool)
    (dr : Except Unit Unit) :
    (st.sessionId = some sid →
      handleResetChat st true (.ok ()) =
        ({ st with messages := [initialAssistantMessage] },
         [NetworkCall.deleteSession sid])) ∧
    (st.sessionId = none → handleResetChat st c dr = (st, [])) := by
  constructor
  · intro hs
    simp [handleResetChat, hs]
  · intro hs
    simp [handleResetChat, hs]

/-- Witness for C8: reset at `demoState` keeps everything but the log, and
reset with no active session is a no-op. -/
theorem C8_reset_scoped_to_log_witness :
    handleResetChat demoState true (.ok ()) =
      ({ demoState with messages := [initialAssistantMessage] },
       [NetworkCall.deleteSession "abc"]) ∧
    handleResetChat noSessionState true (.ok ()) = (noSessionState, []) :=
  ⟨(C8_reset_scoped_to_log demoState "abc" true (.ok ())).1 (by decide),
   (C8_reset_scoped_to_log noSessionState "abc" true (.ok ())).2 (by decide)⟩

/-- C9: switching to the already-active id is a complete no-op (no fetch, no
state change), while switching to a different registered id sets it current,
persists it under the `chat_session_id` key, and issues exactly the history
fetch for it. -/
theorem C9_switch_session (st : ChatState) (id : String)
    (res : Except Unit HistoryResponse) :
    (some id = st.sessionId → handleLoadSession st id res = (st, [])) ∧
    (some id ≠ st.sessionId → id ∈ st.historyList.map HistoryItem.id →
      (handleLoadSession st id res).1.sessionId = some id ∧
      (handleLoadSession st id res).1.store.chatSessionId = some id ∧
      (handleLoadSession st id res).2 = [NetworkCall.fetchHistory id]) := by
  constructor
  · intro h
    unfold handleLoadSession
    rw [if_pos h]
  · intro h _
    unfold handleLoadSession
    rw [if_neg h]
    exact ⟨(fetchHistory_frame _ id res).1,
      congrArg Store.chatSessionId (fetchHistory_frame _ id res).2.1,
      (fetchHistory_frame _ id res).2.2.2⟩

/-- Witness for C9: selecting the active id `abc` is a no-op; selecting the
other registered id `xyz` activates and persists it and fetches its history. -/
theorem C9_switch_session_witness :
    handleLoadSession demoState "abc" (.ok { history := none }) = (demoState, []) ∧
    ((handleLoadSession demoStateTwo "xyz" (.ok { history := none })).1.sessionId = some "xyz" ∧
     (handleLoadSession demoStateTwo "xyz" (.ok { history := none })).1.store.chatSessionId =
       some "xyz" ∧
     (handleLoadSession demoStateTwo "xyz" (.ok { history := none })).2 =
       [NetworkCall.fetchHistory "xyz"]) :=
  ⟨(C9_switch_session demoState "abc" (.ok { history := none })).1 (by decide),
   (C9_switch_session demoStateTwo "xyz" (.ok { history := none })).2 (by decide) (by decide)⟩

end ChatTsx
